import Mathlib

/-!
Verification of the render-project repository (src/brandfetch-proxy.js):
a Brand Proxy service (`GET /brandkit`) and an Ad Generator service
(`GET /generate-ads`).  The JavaScript source is shallowly embedded:
query parameters are `Option String`, the outcome of an outbound `fetch`
is passed in explicitly, and JavaScript truthiness of strings and
`parseInt` are modelled as executable Lean functions.
-/

namespace RenderProject

/-- JS truthiness of a `string | undefined` value: `undefined` and the
empty string are falsy, every other string is truthy. -/
def jsTruthyStr : Option String → Bool
  | some s => decide (s ≠ "")
  | none => false

/-- JS `a || b` on a `string | undefined` left operand with a string
default: returns the left string when truthy, otherwise the default. -/
def jsStrOr (a : Option String) (b : String) : String :=
  match a with
  | some s => if s = "" then b else s
  | none => b

/-- The ASCII apostrophe character, used inside template text. -/
def apos : String := String.singleton (Char.ofNat 39)

/-- An entry of a brand kit's `colors` array; only the `hex` field is
consumed (`null`/absent is modelled as `none`). -/
structure ColorEntry where
  hex : Option String
  deriving DecidableEq

/-- The brand kit consumed from the proxy: optional `name`, optional
`domain`, optional `colors` array. -/
structure BrandKit where
  name : Option String := none
  domain : Option String := none
  colors : Option (List ColorEntry) := none
  deriving DecidableEq

/-- The output of one ad template: headline, body text, call-to-action. -/
structure AdCopy where
  headline : String
  text : String
  cta : String
  deriving DecidableEq

/-- A generated ad: template output plus the brand colour. -/
structure Ad where
  headline : String
  text : String
  cta : String
  color : String
  deriving DecidableEq

/-- The fixed table of ten ad templates from the source, each a function
from the brand name to an `AdCopy` (string interpolation becomes
concatenation; the source's U+2011 non-breaking hyphens are kept). -/
def templates : List (String → AdCopy) :=
  [ fun brand =>
      { headline := "Experience " ++ brand ++ " first‑hand"
        text := "See how " ++ brand ++ " can transform your business. Book a live demo today!"
        cta := "REQUEST_DEMO" }
  , fun brand =>
      { headline := "Join our upcoming " ++ brand ++ " webinar"
        text := "Learn industry best practices and how " ++ brand ++ " is leading the way in innovation. Reserve your seat now."
        cta := "ATTEND" }
  , fun brand =>
      { headline := "Ready to get started with " ++ brand ++ "?"
        text := "Apply now and start leveraging " ++ brand ++ " to grow your business."
        cta := "APPLY_NOW" }
  , fun brand =>
      { headline := "Unlock your exclusive " ++ brand ++ " guide"
        text := "Download the full document and learn how " ++ brand ++ " can help you optimise workflows."
        cta := "UNLOCK_FULL_DOCUMENT" }
  , fun brand =>
      { headline := "Discover the power of " ++ brand
        text := "Learn more about " ++ brand ++ apos ++ "s solutions and see why industry leaders choose us."
        cta := "LEARN_MORE" }
  , fun brand =>
      { headline := "Start your free trial of " ++ brand
        text := "Sign up today and experience the benefits of " ++ brand ++ " without any commitment."
        cta := "SIGN_UP" }
  , fun brand =>
      { headline := "Free eBook: " ++ brand ++ " best practices"
        text := "Download our free eBook packed with insights and strategies to get the most out of " ++ brand ++ "."
        cta := "DOWNLOAD" }
  , fun brand =>
      { headline := "Get your personalised " ++ brand ++ " quote"
        text := "Find out how affordable " ++ brand ++ " can be for your organisation."
        cta := "GET_QUOTE" }
  , fun brand =>
      { headline := "Register for an upcoming " ++ brand ++ " workshop"
        text := "Hands‑on training from the experts. Reserve your spot and accelerate your learning."
        cta := "REGISTER" }
  , fun brand =>
      { headline := "Join the " ++ brand ++ " community"
        text := "Be part of a vibrant network of professionals and stay ahead with the latest updates from " ++ brand ++ "."
        cta := "JOIN" }
  ]

/-- Template lookup by index (`templates[j]`); the out-of-range default is
never reached because callers index modulo `templates.length`. -/
def templateAt (j : Nat) : String → AdCopy :=
  templates.getD j (fun _ => { headline := "", text := "", cta := "" })

/-- `kit.name || kit.domain || 'Your brand'` from `generateAdsForKit`. -/
def brandNameOf (kit : BrandKit) : String :=
  jsStrOr kit.name (jsStrOr kit.domain "Your brand")

/-- The primary-colour derivation from `generateAdsForKit`: default
`#0052cc`; if `kit.colors` is a non-empty array, the first entry with a
truthy `hex` (via `Array.prototype.find`) overrides the default. -/
def primaryColourOf (kit : BrandKit) : String :=
  match kit.colors with
  | some cs =>
    if cs.length > 0 then
      match cs.find? (fun c => jsTruthyStr c.hex) with
      | some accent =>
        if jsTruthyStr accent.hex then accent.hex.getD "#0052cc" else "#0052cc"
      | none => "#0052cc"
    else "#0052cc"
  | none => "#0052cc"

/-- `generateAdsForKit(kit, count)`: the `for (let i = 0; i < count; i++)`
loop becomes a map over `List.range count.toNat` (zero iterations when
`count ≤ 0`); each ad is the template at `i % templates.length` applied to
the brand name, plus the primary colour. -/
def generateAdsForKit (kit : BrandKit) (count : Int) : List Ad :=
  let brandName := brandNameOf kit
  let primaryColour := primaryColourOf kit
  (List.range count.toNat).map fun i =>
    let copy := templateAt (i % templates.length) brandName
    { headline := copy.headline, text := copy.text, cta := copy.cta
      color := primaryColour }

instance exceptDecEq {ε α : Type} [DecidableEq ε] [DecidableEq α] :
    DecidableEq (Except ε α) := fun x y =>
  match x, y with
  | .error a, .error b =>
    decidable_of_iff (a = b) ⟨fun h => by rw [h], fun h => by injection h⟩
  | .error _, .ok _ => .isFalse (fun h => by injection h)
  | .ok _, .error _ => .isFalse (fun h => by injection h)
  | .ok a, .ok b =>
    decidable_of_iff (a = b) ⟨fun h => by rw [h], fun h => by injection h⟩

/-- The result of awaiting `fetch` inside `fetchBrandKit`: either the
promise rejects (network error, message string), or an HTTP response
arrives with a status, a status text, and a body whose `res.json()`
either parses to a brand kit or throws. -/
inductive NetResult where
  | netError (msg : String)
  | response (status : Nat) (statusText : String) (body : Except String BrandKit)
  deriving DecidableEq

/-- `fetchBrandKit(domain)` given the outcome of its `fetch`: a rejected
fetch propagates its error; a response with `!res.ok` (status outside
200–299) throws the formatted error; otherwise the result of
`res.json()` is returned (or its parse error propagated). -/
def fetchBrandKit (domain : String) (net : NetResult) : Except String BrandKit :=
  match net with
  | .netError msg => .error msg
  | .response status statusText body =>
    if 200 ≤ status ∧ status ≤ 299 then
      body
    else
      .error ("Failed to fetch brand kit for " ++ domain ++ ": " ++
        toString status ++ " " ++ statusText)

/-- JS whitespace skipped by `parseInt` (space, tab, LF, VT, FF, CR). -/
def isJsSpace (c : Char) : Bool :=
  c.toNat = 32 ∨ c.toNat = 9 ∨ c.toNat = 10 ∨ c.toNat = 11 ∨
    c.toNat = 12 ∨ c.toNat = 13

/-- ASCII decimal digit test. -/
def isDecDigit (c : Char) : Bool := 48 ≤ c.toNat ∧ c.toNat ≤ 57

/-- JS `parseInt(s, 10)`: skip leading whitespace, take an optional sign,
then the longest prefix of decimal digits; `none` models `NaN` (no
digits). -/
def jsParseInt (s : String) : Option Int :=
  let cs := s.data.dropWhile isJsSpace
  let signAndRest : Int × List Char :=
    match cs with
    | c :: t =>
      if c.toNat = 43 then (1, t)
      else if c.toNat = 45 then (-1, t)
      else (1, cs)
    | [] => (1, [])
  let ds := signAndRest.2.takeWhile isDecDigit
  if ds.isEmpty then none
  else some (signAndRest.1 *
    (ds.foldl (fun a c => a * 10 + (c.toNat - 48)) 0 : Nat))

/-- `parseInt(req.query.count, 10)` where the parameter may be absent
(`parseInt(undefined, 10)` is `NaN`). -/
def jsParseIntOpt : Option String → Option Int
  | some s => jsParseInt s
  | none => none

/-- `parseInt(req.query.count, 10) || 3`: `NaN` and `0` (both falsy)
yield the default `3`. -/
def countOf (countParam : Option String) : Int :=
  match jsParseIntOpt countParam with
  | some v => if v = 0 then 3 else v
  | none => 3

/-- Body of a `/generate-ads` response: the success payload
`{domain, ads}` or an `{error}` object. -/
inductive GenBody where
  | payload (domain : String) (ads : List Ad)
  | errorMsg (msg : String)
  deriving DecidableEq

/-- An HTTP response of the Ad Generator: status code and JSON body. -/
structure GenResponse where
  status : Nat
  body : GenBody
  deriving DecidableEq

/-- The `/generate-ads` handler, given both query parameters and the
outcome of the outbound fetch; the second component records whether the
brand-kit fetch was performed.  A falsy `domain` (absent or empty) is
rejected with 400 before any fetch; a `fetchBrandKit` error is caught
and surfaced as 500; otherwise 200 with the generated ads. -/
def handleGenerateAds (domainParam countParam : Option String)
    (net : NetResult) : GenResponse × Bool :=
  let count := countOf countParam
  match domainParam with
  | none =>
    (⟨400, .errorMsg "Missing required query parameter: domain"⟩, false)
  | some domain =>
    if domain = "" then
      (⟨400, .errorMsg "Missing required query parameter: domain"⟩, false)
    else
      match fetchBrandKit domain net with
      | .error e => (⟨500, .errorMsg e⟩, true)
      | .ok kit => (⟨200, .payload domain (generateAdsForKit kit count)⟩, true)

/-- The ads carried by a `/generate-ads` response (empty on error). -/
def adsOf (r : GenResponse) : List Ad :=
  match r.body with
  | .payload _ ads => ads
  | .errorMsg _ => []

/-- The `/brandkit` handler of the Brand Proxy, generic in the upstream
JSON body type: a rejected fetch or a `res.json()` failure is caught and
answered with 500 `{error}`; otherwise the parsed upstream body is
relayed verbatim with 200 (the proxy never inspects `res.ok`). -/
def handleBrandkit {α : Type} (net : Except String (Except String α)) :
    Nat × (α ⊕ String) :=
  match net with
  | .error e => (500, .inr e)
  | .ok (.error e) => (500, .inr e)
  | .ok (.ok data) => (200, .inl data)

/-- The upstream URL built by the Brand Proxy:
`https://api.brandfetch.io/v2/brands/${domain}` — raw interpolation. -/
def brandkitUpstreamUrl (domain : String) : String :=
  "https://api.brandfetch.io/v2/brands/" ++ domain

/-- Default Brand Proxy base URL of the Ad Generator. -/
def brandProxyBaseDefault : String :=
  "https://render-project-cx98.onrender.com/brandkit"

/-- Characters left unescaped by JS `encodeURIComponent`:
`A–Z a–z 0–9 - _ . ! ~ * ' ( )`. -/
def isUriUnescaped (c : Char) : Bool :=
  let n := c.toNat
  (65 ≤ n ∧ n ≤ 90) ∨ (97 ≤ n ∧ n ≤ 122) ∨ (48 ≤ n ∧ n ≤ 57) ∨
    n = 45 ∨ n = 95 ∨ n = 46 ∨ n = 33 ∨ n = 126 ∨ n = 42 ∨ n = 39 ∨
    n = 40 ∨ n = 41

/-- UTF-8 bytes of a character, as natural numbers. -/
def utf8Bytes (c : Char) : List Nat :=
  let n := c.toNat
  if n < 128 then [n]
  else if n < 2048 then [192 + n / 64, 128 + n % 64]
  else if n < 65536 then
    [224 + n / 4096, 128 + (n / 64) % 64, 128 + n % 64]
  else
    [240 + n / 262144, 128 + (n / 4096) % 64, 128 + (n / 64) % 64,
      128 + n % 64]

/-- Upper-case hexadecimal digit for a value below 16. -/
def hexDigit (n : Nat) : Char :=
  if n < 10 then Char.ofNat (48 + n) else Char.ofNat (55 + n)

/-- Percent-encoding of one byte, e.g. `%2F`. -/
def percentByte (b : Nat) : String :=
  "%" ++ String.singleton (hexDigit (b / 16)) ++
    String.singleton (hexDigit (b % 16))

/-- JS `encodeURIComponent`: unescaped characters pass through, every
other character is percent-encoded byte-wise in UTF-8. -/
def encodeURIComponent (s : String) : String :=
  s.data.foldl
    (fun acc c =>
      acc ++
        (if isUriUnescaped c then String.singleton c
         else String.join ((utf8Bytes c).map percentByte)))
    ""

/-- The URL built by the Ad Generator's `fetchBrandKit`:
`${BRAND_PROXY_BASE}?domain=${encodeURIComponent(domain)}`. -/
def fetchBrandKitUrl (base domain : String) : String :=
  base ++ "?domain=" ++ encodeURIComponent domain

/-- A sample brand kit used in concrete witnesses. -/
def kitAcme : BrandKit := { name := some "Acme" }

/-- A successful network outcome delivering `kitAcme` with status 200. -/
def netOkAcme : NetResult := .response 200 "OK" (.ok kitAcme)

/-- A brand kit whose colors array starts with a null hex followed by a
truthy one, used in concrete witnesses. -/
def kitColours : BrandKit := { colors := some [⟨none⟩, ⟨some "#abc123"⟩] }

/-- C5: a request to `/generate-ads` with the `domain` query parameter
missing is answered with status 400 and body
`{error: 'Missing required query parameter: domain'}`, and the brand-kit
fetch is not performed. -/
theorem generateAds_missing_domain_400 (countParam : Option String)
    (net : NetResult) :
    handleGenerateAds none countParam net =
      (⟨400, .errorMsg "Missing required query parameter: domain"⟩, false) :=
  rfl

/-- C7: ad generation is deterministic — two runs of `generateAdsForKit`
on the same brand kit and the same count produce identical ad
sequences. -/
theorem generateAds_deterministic (kit₁ kit₂ : BrandKit)
    (count₁ count₂ : Int) (hk : kit₁ = kit₂) (hc : count₁ = count₂) :
    generateAdsForKit kit₁ count₁ = generateAdsForKit kit₂ count₂ := by
  rw [hk, hc]

theorem generateAds_deterministic_witness :
    kitAcme = kitAcme ∧ (3 : Int) = 3 ∧
      generateAdsForKit kitAcme 3 = generateAdsForKit kitAcme 3 :=
  ⟨rfl, rfl, generateAds_deterministic kitAcme kitAcme 3 3 rfl rfl⟩

/-- C8: every `/brandkit` response either relays a successfully fetched
and parsed upstream body verbatim with status 200, or is a 500 with an
`{error: message}` body (network error, non-JSON body, thrown
exception). -/
theorem brandkit_verbatim_or_500 {α : Type}
    (net : Except String (Except String α)) :
    (∃ d, net = .ok (.ok d) ∧ handleBrandkit net = (200, Sum.inl d)) ∨
    (∃ m, handleBrandkit net = (500, Sum.inr m)) := by
  match net with
  | .error e => exact .inr ⟨e, rfl⟩
  | .ok (.error e) => exact .inr ⟨e, rfl⟩
  | .ok (.ok d) => exact .inl ⟨d, rfl, rfl⟩

/-- C4: when the brand kit has no `colors` field (or the array is
empty), every generated ad carries the default colour `#0052cc`. -/
theorem default_colour_when_no_colors (kit : BrandKit) (count : Int)
    (h : kit.colors = none ∨ kit.colors = some []) :
    ∀ ad ∈ generateAdsForKit kit count, ad.color = "#0052cc" := by
  intro ad had
  have hcol : primaryColourOf kit = "#0052cc" := by
    obtain ⟨nm, dm, co⟩ := kit
    rcases h with h | h <;> (simp only at h; subst h; simp [primaryColourOf])
  simp only [generateAdsForKit, List.mem_map] at had
  obtain ⟨i, _, rfl⟩ := had
  simpa using hcol

theorem default_colour_when_no_colors_witness :
    (kitAcme.colors = none ∨ kitAcme.colors = some []) ∧
      ∀ ad ∈ generateAdsForKit kitAcme 2, ad.color = "#0052cc" :=
  ⟨Or.inl rfl, default_colour_when_no_colors kitAcme 2 (Or.inl rfl)⟩

/-- C3: when the brand kit's colors array is non-empty and contains an
entry with a truthy `hex`, the first such entry's hex value is the
colour of every generated ad. -/
theorem first_truthy_hex_colour (kit : BrandKit) (cs : List ColorEntry)
    (c : ColorEntry) (count : Int)
    (hcs : kit.colors = some cs) (hne : cs ≠ [])
    (hfind : cs.find? (fun e => jsTruthyStr e.hex) = some c) :
    ∃ h, c.hex = some h ∧
      ∀ ad ∈ generateAdsForKit kit count, ad.color = h := by
  have hp' := List.find?_some hfind
  have hp : jsTruthyStr c.hex = true := by simpa using hp'
  obtain ⟨hx, hhx⟩ : ∃ hx, c.hex = some hx := by
    cases hh : c.hex with
    | none => rw [hh] at hp; simp [jsTruthyStr] at hp
    | some s => exact ⟨s, rfl⟩
  refine ⟨hx, hhx, ?_⟩
  intro ad had
  have hcol : primaryColourOf kit = hx := by
    obtain ⟨nm, dm, co⟩ := kit
    simp only at hcs
    subst hcs
    have hlen : 0 < cs.length := List.length_pos.mpr hne
    rw [hhx] at hp
    simp [primaryColourOf, hlen, hfind, hhx, hp]
  simp only [generateAdsForKit, List.mem_map] at had
  obtain ⟨i, _, rfl⟩ := had
  simpa using hcol

theorem first_truthy_hex_colour_witness :
    kitColours.colors = some [⟨none⟩, ⟨some "#abc123"⟩] ∧
    [(⟨none⟩ : ColorEntry), ⟨some "#abc123"⟩].find?
        (fun e => jsTruthyStr e.hex) = some ⟨some "#abc123"⟩ ∧
    ∃ h, (⟨some "#abc123"⟩ : ColorEntry).hex = some h ∧
      ∀ ad ∈ generateAdsForKit kitColours 3, ad.color = h :=
  ⟨rfl, by decide,
    first_truthy_hex_colour kitColours [⟨none⟩, ⟨some "#abc123"⟩]
      ⟨some "#abc123"⟩ 3 rfl (by decide) (by decide)⟩

/-- C6 (amended): the brand name is `kit.name` when present and
non-empty, else `kit.domain` when present and non-empty, else the
literal `"Your brand"` (JS `||` treats the empty string as absent). -/
theorem brandName_resolution (kit : BrandKit) :
    (∀ s, kit.name = some s → s ≠ "" → brandNameOf kit = s) ∧
    (∀ d, (kit.name = none ∨ kit.name = some "") → kit.domain = some d →
      d ≠ "" → brandNameOf kit = d) ∧
    ((kit.name = none ∨ kit.name = some "") →
      (kit.domain = none ∨ kit.domain = some "") →
      brandNameOf kit = "Your brand") := by
  obtain ⟨nm, dm, co⟩ := kit
  refine ⟨?_, ?_, ?_⟩
  · intro s hs hne
    simp only at hs
    subst hs
    simp [brandNameOf, jsStrOr, hne]
  · intro d hn hd hne
    simp only at hn hd
    subst hd
    rcases hn with h | h <;> subst h <;> simp [brandNameOf, jsStrOr, hne]
  · intro hn hd
    simp only at hn hd
    rcases hn with h | h <;> rcases hd with h2 | h2 <;> subst h <;> subst h2 <;>
      simp [brandNameOf, jsStrOr]

/-- C6 counterexample: a kit whose `name` field is present but empty is
not resolved to that name — `{name: "", domain: "acme.com"}` resolves to
`"acme.com"`, not to the present `name`. -/
theorem brandName_present_empty_name_counterexample :
    ({ name := some "", domain := some "acme.com" } : BrandKit).name =
        some "" ∧
    brandNameOf { name := some "", domain := some "acme.com" } =
        "acme.com" ∧
    brandNameOf { name := some "", domain := some "acme.com" } ≠ "" := by
  refine ⟨rfl, rfl, ?_⟩
  decide

theorem brandName_resolution_witness :
    brandNameOf { name := some "Acme" } = "Acme" ∧
    brandNameOf { domain := some "acme.com" } = "acme.com" ∧
    brandNameOf {} = "Your brand" :=
  ⟨(brandName_resolution { name := some "Acme" }).1 "Acme" rfl
      (by decide),
    (brandName_resolution { domain := some "acme.com" }).2.1 "acme.com"
      (Or.inl rfl) rfl (by decide),
    (brandName_resolution {}).2.2 (Or.inl rfl) (Or.inl rfl)⟩

/-- C1 (amended): for a request to `/generate-ads` with a valid domain,
a successful brand-kit fetch, and a `count` parameter parsing to an
integer `n ≥ 1`, the response is 200 with exactly `n` ads, and the i-th
ad's headline, text and cta are the output of template `i mod 10`
applied to the resolved brand name. -/
theorem generateAds_positive_count (n : Int) (cs ds statusText : String)
    (status : Nat) (kit : BrandKit)
    (hn : jsParseInt cs = some n) (hpos : 1 ≤ n) (hds : ds ≠ "")
    (hlo : 200 ≤ status) (hhi : status ≤ 299) :
    (handleGenerateAds (some ds) (some cs)
        (.response status statusText (.ok kit))).1 =
      ⟨200, .payload ds (generateAdsForKit kit n)⟩ ∧
    (generateAdsForKit kit n).length = n.toNat ∧
    ∀ i, (h : i < (generateAdsForKit kit n).length) →
      ((generateAdsForKit kit n)[i]).headline =
        (templateAt (i % 10) (brandNameOf kit)).headline ∧
      ((generateAdsForKit kit n)[i]).text =
        (templateAt (i % 10) (brandNameOf kit)).text ∧
      ((generateAdsForKit kit n)[i]).cta =
        (templateAt (i % 10) (brandNameOf kit)).cta := by
  have hne : n ≠ 0 := by omega
  refine ⟨?_, ?_, ?_⟩
  · simp [handleGenerateAds, countOf, jsParseIntOpt, hn, hne, hds,
      fetchBrandKit, hlo, hhi]
  · simp [generateAdsForKit]
  · intro i h
    have hten : templates.length = 10 := rfl
    simp only [generateAdsForKit, List.getElem_map, List.getElem_range,
      hten]
    exact ⟨trivial, trivial, trivial⟩

/-- C1 counterexample: a `count` parameter parsing to the integer `0`
does not yield `0` ads — `parseInt('0', 10) || 3` falls back to the
default, so the response carries 3 ads. -/
theorem generateAds_count_zero_counterexample :
    jsParseIntOpt (some "0") = some 0 ∧
    (adsOf (handleGenerateAds (some "acme.com") (some "0")
        netOkAcme).1).length = 3 ∧
    (adsOf (handleGenerateAds (some "acme.com") (some "0")
        netOkAcme).1).length ≠ 0 := by
  refine ⟨rfl, rfl, ?_⟩
  decide

theorem generateAds_positive_count_witness :
    jsParseInt "7" = some 7 ∧ (1 : Int) ≤ 7 ∧ "acme.com" ≠ "" ∧
    (200 ≤ 200 ∧ 200 ≤ 299) ∧
    (handleGenerateAds (some "acme.com") (some "7")
        (.response 200 "OK" (.ok kitAcme))).1 =
      ⟨200, .payload "acme.com" (generateAdsForKit kitAcme 7)⟩ ∧
    (generateAdsForKit kitAcme 7).length = 7 :=
  ⟨rfl, by decide, by decide, by decide,
    (generateAds_positive_count 7 "7" "acme.com" "OK" 200 kitAcme rfl
      (by decide) (by decide) (by decide) (by decide)).1,
    (generateAds_positive_count 7 "7" "acme.com" "OK" 200 kitAcme rfl
      (by decide) (by decide) (by decide) (by decide)).2.1⟩

/-- C2: when the fetch inside `fetchBrandKit` yields a response whose
status is not successful, the `/generate-ads` handler answers 500 with
an `{error: message}` body whose message contains the status code. -/
theorem fetch_bad_status_500 (ds statusText : String)
    (countParam : Option String) (status : Nat)
    (body : Except String BrandKit)
    (hds : ds ≠ "") (hbad : ¬(200 ≤ status ∧ status ≤ 299)) :
    ∃ pre post,
      (handleGenerateAds (some ds) countParam
          (.response status statusText body)).1 =
        ⟨500, .errorMsg (pre ++ toString status ++ post)⟩ := by
  refine ⟨"Failed to fetch brand kit for " ++ ds ++ ": ",
    " " ++ statusText, ?_⟩
  simp only [handleGenerateAds, fetchBrandKit, if_neg hds, if_neg hbad]
  simp [String.append_assoc]

theorem fetch_bad_status_500_witness :
    "acme.com" ≠ "" ∧ ¬(200 ≤ 404 ∧ 404 ≤ 299) ∧
    ∃ pre post,
      (handleGenerateAds (some "acme.com") none
          (.response 404 "Not Found" (.ok kitAcme))).1 =
        ⟨500, .errorMsg (pre ++ toString 404 ++ post)⟩ :=
  ⟨by decide, by decide,
    fetch_bad_status_500 "acme.com" "Not Found" none 404 (.ok kitAcme)
      (by decide) (by decide)⟩

/-- C10: with a valid domain and a successful brand-kit fetch, a `count`
parameter parsing to `0` is treated like a missing count (3 ads), and a
negative parse yields a 200 response with an empty ads sequence. -/
theorem generateAds_zero_and_negative_count (ds cs statusText : String)
    (status : Nat) (kit : BrandKit) (n : Int)
    (hds : ds ≠ "") (hlo : 200 ≤ status) (hhi : status ≤ 299)
    (hn : jsParseInt cs = some n) :
    (n = 0 →
      (handleGenerateAds (some ds) (some cs)
          (.response status statusText (.ok kit))).1 =
        ⟨200, .payload ds (generateAdsForKit kit 3)⟩ ∧
      (generateAdsForKit kit 3).length = 3) ∧
    (n < 0 →
      (handleGenerateAds (some ds) (some cs)
          (.response status statusText (.ok kit))).1 =
        ⟨200, .payload ds []⟩) := by
  constructor
  · intro h0
    subst h0
    constructor
    · simp [handleGenerateAds, countOf, jsParseIntOpt, hn, hds,
        fetchBrandKit, hlo, hhi]
    · simp [generateAdsForKit]
  · intro hneg
    have hne : n ≠ 0 := by omega
    have h0 : n.toNat = 0 := Int.toNat_of_nonpos (by omega)
    simp [handleGenerateAds, countOf, jsParseIntOpt, hn, hne, hds,
      fetchBrandKit, hlo, hhi, generateAdsForKit, h0]

theorem generateAds_zero_and_negative_count_witness :
    jsParseInt "0" = some 0 ∧
    ((handleGenerateAds (some "acme.com") (some "0")
        (.response 200 "OK" (.ok kitAcme))).1 =
      ⟨200, .payload "acme.com" (generateAdsForKit kitAcme 3)⟩ ∧
     (generateAdsForKit kitAcme 3).length = 3) ∧
    jsParseInt "-5" = some (-5) ∧
    (handleGenerateAds (some "acme.com") (some "-5")
        (.response 200 "OK" (.ok kitAcme))).1 =
      ⟨200, .payload "acme.com" []⟩ :=
  ⟨rfl,
    (generateAds_zero_and_negative_count "acme.com" "0" "OK" 200 kitAcme
      0 (by decide) (by decide) (by decide) rfl).1 rfl,
    by decide,
    (generateAds_zero_and_negative_count "acme.com" "-5" "OK" 200
      kitAcme (-5) (by decide) (by decide) (by decide) (by decide)).2
      (by decide)⟩

/-- C9 counterexample: the Ad Generator does not interpolate the domain
directly into its Brand Proxy request URL — `encodeURIComponent`
percent-encodes it, so for the domain `a/b` the URL carries `a%2Fb`
rather than the raw domain. -/
theorem domain_encoding_counterexample :
    encodeURIComponent "a/b" = "a%2Fb" ∧
    fetchBrandKitUrl brandProxyBaseDefault "a/b" ≠
      brandProxyBaseDefault ++ "?domain=" ++ "a/b" ∧
    fetchBrandKitUrl brandProxyBaseDefault "a/b" =
      brandProxyBaseDefault ++ "?domain=" ++ "a%2Fb" := by
  refine ⟨by decide, by decide, by decide⟩

/-- C9 (amended): the Brand Proxy interpolates the domain directly
(unsanitized) into its upstream URL; the Ad Generator applies
`encodeURIComponent` to the domain before interpolating it into the
Brand Proxy request URL, so only domains made entirely of unescaped
characters appear verbatim there. -/
theorem outbound_url_construction (base d : String) :
    brandkitUpstreamUrl d = "https://api.brandfetch.io/v2/brands/" ++ d ∧
    fetchBrandKitUrl base d =
      base ++ "?domain=" ++ encodeURIComponent d ∧
    ((∀ c ∈ d.data, isUriUnescaped c = true) →
      fetchBrandKitUrl base d = base ++ "?domain=" ++ d) := by
  refine ⟨rfl, rfl, fun h => ?_⟩
  have henc : encodeURIComponent d = d := by
    have key : ∀ (l : List Char) (acc : String),
        (∀ c ∈ l, isUriUnescaped c = true) →
        l.foldl
          (fun acc c =>
            acc ++
              (if isUriUnescaped c then String.singleton c
               else String.join ((utf8Bytes c).map percentByte)))
          acc = acc ++ String.mk l := by
      intro l
      induction l with
      | nil =>
        intro acc _
        cases acc with
        | mk data =>
          show String.mk data = String.mk (data ++ [])
          rw [List.append_nil]
      | cons c t ih =>
        intro acc hall
        have hc : isUriUnescaped c = true := hall c (List.mem_cons_self c t)
        have ht : ∀ x ∈ t, isUriUnescaped x = true :=
          fun x hx => hall x (List.mem_cons_of_mem c hx)
        simp only [List.foldl_cons, hc, if_pos]
        rw [ih (acc ++ String.singleton c) ht]
        cases acc
        show String.mk _ = String.mk _
        simp [String.singleton]
    have hd : encodeURIComponent d = "" ++ String.mk d.data := key d.data "" h
    cases d
    simpa using hd
  rw [fetchBrandKitUrl, henc]

theorem outbound_url_construction_witness :
    (∀ c ∈ ("acme.com" : String).data, isUriUnescaped c = true) ∧
    fetchBrandKitUrl brandProxyBaseDefault "acme.com" =
      brandProxyBaseDefault ++ "?domain=" ++ "acme.com" :=
  ⟨by decide,
    (outbound_url_construction brandProxyBaseDefault "acme.com").2.2
      (by decide)⟩

end RenderProject
